import Mathlib

/-!
A verification development for the `multiagent` voice-assistant repository
(`src/multiagent.py`, `src/main.py`).  The Python code is shallowly embedded:
pure decision logic (intent classification, routing, fallback dispatch,
retry envelopes, locale choice, exit detection) becomes executable Lean
functions over `String` / `List Char`; the external effects (model
invocation, file writing, microphone capture) are passed in as explicit
parameters so that the control flow around them can be proved.
-/

/-- The four task categories of `ModelRouter.task_patterns`
(`src/multiagent.py`, lines 17-22). -/
inductive Category where
  | code
  | chat
  | creative
  | analysis
deriving DecidableEq, Repr

/-- The keys of `self.models` / `self.chains` in `src/multiagent.py`
(`'chat'` is the general conversational capability, `'code'` the
code-specialised one). -/
inductive ModelKey where
  | chat
  | code
deriving DecidableEq, Repr

/-- Python `sub in s` over character lists: does `pat` occur contiguously in
`s`? -/
def containsSub (pat : List Char) : List Char → Bool
  | [] => pat.isPrefixOf []
  | c :: rest => pat.isPrefixOf (c :: rest) || containsSub pat rest

/-- String wrapper for `containsSub` (Python `sub in s`). -/
def containsSubS (pat s : String) : Bool :=
  containsSub pat.data s.data

/-- Python `str.lower()` restricted to the ASCII range (the pattern tables
are ASCII, so this agrees with Python wherever the patterns can match). -/
def lowerString (s : String) : String :=
  ⟨s.data.map Char.toLower⟩

/-- First alternative of `pats` that is a prefix of `s`, returning its
length.  This is how a Python regex alternation of literal words matches at
one position: alternatives are tried left to right. -/
def tryMatch (pats : List (List Char)) (s : List Char) : Option Nat :=
  match pats with
  | [] => none
  | p :: rest => if p.isPrefixOf s then some p.length else tryMatch rest s

/-- Fuel-driven scanner behind `countMatches`; each step consumes at least
one character, so `s.length` fuel is always enough. -/
def countMatchesAux (pats : List (List Char)) : Nat → List Char → Nat
  | 0, _ => 0
  | _, [] => 0
  | fuel + 1, c :: rest =>
    match tryMatch pats (c :: rest) with
    | some n => 1 + countMatchesAux pats fuel (rest.drop (n - 1))
    | none => countMatchesAux pats fuel rest

/-- `len(re.findall(alt, s))` for an alternation `alt` of literal words:
scan left to right; at each position take the first alternative that
matches, count it, and continue after it (non-overlapping); otherwise
advance one character. -/
def countMatches (pats : List (List Char)) (s : List Char) : Nat :=
  countMatchesAux pats s.length s

/-- `ModelRouter.task_patterns` (`src/multiagent.py`, lines 17-22): each
category's regex, as its list of literal alternatives in source order. -/
def task_patterns : Category → List String
  | .code =>
      ["code", "program", "script", "function", "class", "bug", "error",
       "debug", "implement", "develop"]
  | .chat =>
      ["chat", "talk", "speak", "converse", "discuss", "explain", "help",
       "assist"]
  | .creative =>
      ["story", "poem", "creative", "imagine", "generate", "write",
       "compose"]
  | .analysis =>
      ["analyze", "examine", "investigate", "research", "study", "evaluate"]

/-- The `scores` dict of `ModelRouter.choose_model` (`src/multiagent.py`,
lines 29-34): number of non-overlapping pattern matches of category `c` in
the lowercased query. -/
def scoreOf (query : String) (c : Category) : Nat :=
  countMatches ((task_patterns c).map String.data) (lowerString query).data

/-- `max(scores.values())` (`src/multiagent.py`, line 37). -/
def maxScore (query : String) : Nat :=
  max (max (max (scoreOf query .code) (scoreOf query .chat))
    (scoreOf query .creative)) (scoreOf query .analysis)

/-- Python `max(items, key=...)` over a list of categories with current
best `b`: a later element replaces the best only on a strictly greater
score, so the first maximal element (in iteration order) wins. -/
def pyMaxBy (f : Category → Nat) : List Category → Category → Category
  | [], b => b
  | c :: rest, b => pyMaxBy f rest (if f c > f b then c else b)

/-- The category component of `ModelRouter.choose_model`
(`src/multiagent.py`, lines 24-41): all scores zero defaults to `chat`,
otherwise `max(scores.items(), key=lambda x: x[1])[0]` over the dict in
its insertion order `code, chat, creative, analysis`. -/
def choose_model_type (query : String) : Category :=
  if maxScore query = 0 then .chat
  else pyMaxBy (scoreOf query) [.chat, .creative, .analysis] .code

/-- Modelled from the spec words for the amended tie-break claim: the first
category in the table order `code, chat, creative, analysis` attaining the
maximal score. -/
def specFirstMax (query : String) : Category :=
  if scoreOf query .code = maxScore query then .code
  else if scoreOf query .chat = maxScore query then .chat
  else if scoreOf query .creative = maxScore query then .creative
  else .analysis

/-- The `model_mapping` dict of `ModelRouter.choose_model`
(`src/multiagent.py`, lines 44-49): category to model key.  The `chat`
model key is the general conversational role; the mapping is a total
function of the category. -/
def model_mapping : Category → ModelKey
  | .code => .code
  | .chat => .chat
  | .creative => .chat
  | .analysis => .chat

theorem natMax_facts (x y : Nat) :
    x ≤ max x y ∧ y ≤ max x y ∧ (max x y = x ∨ max x y = y) :=
  ⟨le_max_left x y, le_max_right x y, max_choice x y⟩

/-- The Python `max(scores.items(), key=...)` over the insertion-ordered
dict returns the first category (in order `code, chat, creative,
analysis`) attaining the maximal score. -/
theorem pyMaxBy_eq_firstMax (f : Category → Nat) :
    pyMaxBy f [.chat, .creative, .analysis] .code =
      (if f .code = max (max (max (f .code) (f .chat)) (f .creative)) (f .analysis)
         then Category.code
       else if f .chat = max (max (max (f .code) (f .chat)) (f .creative)) (f .analysis)
         then Category.chat
       else if f .creative = max (max (max (f .code) (f .chat)) (f .creative)) (f .analysis)
         then Category.creative
       else Category.analysis) := by
  obtain ⟨p1, p2, p3⟩ := natMax_facts (f .code) (f .chat)
  obtain ⟨q1, q2, q3⟩ := natMax_facts (max (f .code) (f .chat)) (f .creative)
  obtain ⟨r1, r2, r3⟩ :=
    natMax_facts (max (max (f .code) (f .chat)) (f .creative)) (f .analysis)
  simp only [pyMaxBy]
  rcases p3 with p3 | p3 <;> rcases q3 with q3 | q3 <;> rcases r3 with r3 | r3 <;>
    split_ifs <;> first | rfl | omega

/-- Claim C1, counterexample: the input "debug chat" scores 1 for `code`
and 1 for `chat` (a tie for the strictly highest nonzero count, the other
two categories scoring 0), yet `choose_model` classifies it as `code`, not
`chat`: Python's `max` keeps the first maximal dict item and the `scores`
dict iterates `code` first. -/
theorem C1_counterexample :
    scoreOf "debug chat" Category.code = 1 ∧
    scoreOf "debug chat" Category.chat = 1 ∧
    scoreOf "debug chat" Category.creative = 0 ∧
    scoreOf "debug chat" Category.analysis = 0 ∧
    choose_model_type "debug chat" = Category.code := by
  refine ⟨by decide, by decide, by decide, by decide, by decide⟩

/-- Claim C1, amended: ties for the highest nonzero count are resolved by
the fixed insertion order of the `scores` dict — `code` over `chat` over
`creative` over `analysis` (the first category attaining the maximum
wins), not by a chat-first priority; the result is deterministic because
Python dict iteration order is the fixed insertion order of the literal. -/
theorem C1_tie_break (query : String) (h : 0 < maxScore query) :
    choose_model_type query = specFirstMax query := by
  unfold choose_model_type specFirstMax
  rw [if_neg (by omega)]
  unfold maxScore
  exact pyMaxBy_eq_firstMax (scoreOf query)

/-- Witness for `C1_tie_break` at the concrete input "debug chat"
(maximal score 1 > 0, attained first by `code`). -/
theorem C1_tie_break_witness :
    0 < maxScore "debug chat" ∧ choose_model_type "debug chat" = specFirstMax "debug chat" :=
  ⟨by decide, C1_tie_break "debug chat" (by decide)⟩

/-- Claim C6 (confirmed): whenever every category scores zero on the
input — in particular on empty input — `choose_model` returns the default
category `chat`; the function is total, so it never fails. -/
theorem C6_zero_scores_default_chat (query : String)
    (h0 : scoreOf query Category.code = 0)
    (h1 : scoreOf query Category.chat = 0)
    (h2 : scoreOf query Category.creative = 0)
    (h3 : scoreOf query Category.analysis = 0) :
    choose_model_type query = Category.chat := by
  unfold choose_model_type maxScore
  rw [h0, h1, h2, h3]
  simp

/-- Witness for `C6_zero_scores_default_chat` at the empty input. -/
theorem C6_zero_scores_default_chat_witness :
    scoreOf "" Category.code = 0 ∧ scoreOf "" Category.chat = 0 ∧
    scoreOf "" Category.creative = 0 ∧ scoreOf "" Category.analysis = 0 ∧
    choose_model_type "" = Category.chat :=
  ⟨by decide, by decide, by decide, by decide,
    C6_zero_scores_default_chat "" (by decide) (by decide) (by decide) (by decide)⟩

/-- Claim C5 (confirmed): the static `model_mapping` table sends the
`code` category to the `code` model key and every other category (`chat`,
`creative`, `analysis`) to the `chat` model key — the general
conversational role; being a total Lean function of the category, the
mapping never fails. -/
theorem C5_route_table (c : Category) :
    (c = Category.code → model_mapping c = ModelKey.code) ∧
    (c ≠ Category.code → model_mapping c = ModelKey.chat) := by
  cases c <;> exact ⟨fun h => by simp_all [model_mapping], fun h => by simp_all [model_mapping]⟩

/-- Witness for `C5_route_table` at the `creative` category. -/
theorem C5_route_table_witness :
    Category.creative ≠ Category.code ∧ model_mapping Category.creative = ModelKey.chat :=
  ⟨by decide, (C5_route_table Category.creative).2 (by decide)⟩

/-- The `self.models` dict after `MultiAgentAssistant.__init__`
(`src/multiagent.py`, lines 60-74): the Ollama model name bound to each
model key. -/
structure Models where
  chatModel : String
  codeModel : String
deriving DecidableEq, Repr

/-- `self.models[k]` lookup. -/
def modelFor (m : Models) : ModelKey → String
  | .chat => m.chatModel
  | .code => m.codeModel

/-- `MultiAgentAssistant.__init__` (`src/multiagent.py`, lines 55-74):
from the list of available Ollama models, bind the `chat` key to the first
present chat candidate (raising — here `none` — if there is none), and the
`code` key to the dedicated code model when present, otherwise to the same
model as `chat` (graceful downgrade). -/
def initModels (available : List String) : Option Models :=
  let chatChoice :=
    if available.contains "mistral:7b-instruct-q4_K_M" then
      some "mistral:7b-instruct-q4_K_M"
    else if available.contains "neural-chat:7b-v3.3-q4_K_M" then
      some "neural-chat:7b-v3.3-q4_K_M"
    else if available.contains "llama2:7b-chat-q4_K_M" then
      some "llama2:7b-chat-q4_K_M"
    else none
  match chatChoice with
  | none => none
  | some c =>
      some { chatModel := c,
             codeModel :=
               if available.contains "codellama:7b-instruct-q4_K_M" then
                 "codellama:7b-instruct-q4_K_M"
               else c }

/-- `self.chains.get(task_type, self.chains['chat'])`
(`src/multiagent.py`, line 117): the `chains` dict has only the keys
`chat` and `code`, so `creative` and `analysis` fall through to the
default `chat` chain. -/
def chainsGet : Category → ModelKey
  | .code => .code
  | _ => .chat

/-- `MultiAgentAssistant.process_query` (`src/multiagent.py`, lines
112-129).  The chain invocations are abstracted by `beh`, the
deterministic outcome of running each chain on this query; the result is
the returned response (or the propagated exception), paired with the trace
of chains invoked, in order.  Control flow as in the source: pick the
chain for the classified task type, run it, and on failure retry with the
`chat` chain unless the task type itself is `chat`, in which case the
original error propagates. -/
def process_query (beh : ModelKey → Except String String) (query : String) :
    Except String String × List ModelKey :=
  let task_type := choose_model_type query
  let ck := chainsGet task_type
  match beh ck with
  | .ok r => (.ok r, [ck])
  | .error e =>
      if task_type = Category.chat then (.error e, [ck])
      else
        match beh ModelKey.chat with
        | .ok r => (.ok r, [ck, ModelKey.chat])
        | .error e2 => (.error e2, [ck, ModelKey.chat])

/-- Claim C2, counterexample: the input "imagine" classifies as
`creative`, whose chain is the default `chat` chain; when that chain
fails, the fallback step invokes the very same `chat` chain a second time
within the same dispatch call — the trace is `[chat, chat]`. -/
theorem C2_counterexample :
    choose_model_type "imagine" = Category.creative ∧
    (process_query (fun _ => Except.error "boom") "imagine").2 =
      [ModelKey.chat, ModelKey.chat] := by
  refine ⟨by decide, by decide⟩

/-- Claim C2, amended: within one `process_query` call, no chain is
invoked twice when the classified category is `chat` (no fallback occurs)
or `code` (the fallback `chat` chain differs from the `code` chain); for
`creative` and `analysis` the primary chain is already the `chat` chain
(the `chains` dict has no key for them) and a failure invokes that same
`chat` chain again.  (At the chain level only: in the degraded pool both
chains may wrap the same underlying capability.) -/
theorem C2_no_duplicate_for_chat_code (beh : ModelKey → Except String String)
    (query : String)
    (h : choose_model_type query = Category.chat ∨ choose_model_type query = Category.code) :
    ((process_query beh query).2).Nodup := by
  unfold process_query
  rcases h with h | h <;> rw [h] <;> simp only [chainsGet] <;>
    cases beh ModelKey.chat <;> cases beh ModelKey.code <;> simp [List.Nodup]

/-- Witness for `C2_no_duplicate_for_chat_code` at the code-classified
input "code" with every chain failing: the trace `[code, chat]` has no
duplicate. -/
theorem C2_no_duplicate_for_chat_code_witness :
    (choose_model_type "code" = Category.chat ∨ choose_model_type "code" = Category.code) ∧
    ((process_query (fun _ => Except.error "boom") "code").2).Nodup :=
  ⟨by decide,
    C2_no_duplicate_for_chat_code (fun _ => Except.error "boom") "code" (by decide)⟩

/-- Claim C3, counterexample: with every chain failing deterministically,
a `chat`-classified command (input "chat") makes exactly one invocation
attempt and propagates that error — the fallback role is never attempted,
so the attempt count is 1, not `len(route) = 2`, and no aggregated
per-role error list is produced. -/
theorem C3_counterexample :
    choose_model_type "chat" = Category.chat ∧
    (process_query (fun _ => Except.error "boom") "chat").2 = [ModelKey.chat] ∧
    (process_query (fun _ => Except.error "boom") "chat").1 = Except.error "boom" := by
  refine ⟨by decide, by decide, rfl⟩

/-- Claim C3, amended: if every chain fails deterministically,
`process_query` fails by propagating the last error (a single exception,
not a `DispatchExhausted` list of per-role errors) after exactly one
attempt when the category is `chat` and exactly two attempts (primary
chain, then the `chat` chain) for every other category — for a
chat-classified command the fallback is never attempted. -/
theorem C3_exhaustion_attempts (beh : ModelKey → Except String String)
    (query : String) (hfail : ∀ ck, ∃ e, beh ck = Except.error e) :
    ((process_query beh query).2).length =
      (if choose_model_type query = Category.chat then 1 else 2) ∧
    (∃ e, (process_query beh query).1 = Except.error e) := by
  obtain ⟨e1, he1⟩ := hfail (chainsGet (choose_model_type query))
  obtain ⟨e2, he2⟩ := hfail ModelKey.chat
  simp only [process_query, he1]
  by_cases h : choose_model_type query = Category.chat
  · rw [if_pos h, if_pos h]
    exact ⟨rfl, ⟨e1, rfl⟩⟩
  · rw [if_neg h, if_neg h, he2]
    exact ⟨rfl, ⟨e2, rfl⟩⟩

/-- Witness for `C3_exhaustion_attempts` at the chat-classified input
"chat" with every chain failing. -/
theorem C3_exhaustion_attempts_witness :
    ((process_query (fun _ => Except.error "boom") "chat").2).length =
      (if choose_model_type "chat" = Category.chat then 1 else 2) ∧
    (∃ e, (process_query (fun _ => Except.error "boom") "chat").1 = Except.error e) :=
  C3_exhaustion_attempts (fun _ => Except.error "boom") "chat" (fun _ => ⟨"boom", rfl⟩)

/-- Claim C4 (confirmed): when no dedicated code model is available but a
chat (general) model is, `__init__` binds the `code` key to the general
model — `resolve(code)` is never unavailable — and a code-classified
command dispatches successfully through that general capability. -/
theorem C4_graceful_downgrade (available : List String) (m : Models)
    (invoke : String → Except String String) (query : String) (r : String)
    (hno : available.contains "codellama:7b-instruct-q4_K_M" = false)
    (hinit : initModels available = some m)
    (hok : invoke m.chatModel = Except.ok r)
    (hq : choose_model_type query = Category.code) :
    m.codeModel = m.chatModel ∧
    process_query (fun ck => invoke (modelFor m ck)) query =
      (Except.ok r, [ModelKey.code]) := by
  have hcode : m.codeModel = m.chatModel := by
    unfold initModels at hinit
    simp only [hno, Bool.false_eq_true, if_false] at hinit
    split_ifs at hinit with h1 h2 h3
    · simp only [Option.some.injEq] at hinit
      subst hinit; rfl
    · simp only [Option.some.injEq] at hinit
      subst hinit; rfl
    · simp only [Option.some.injEq] at hinit
      subst hinit; rfl
  refine ⟨hcode, ?_⟩
  unfold process_query
  rw [hq]
  simp only [chainsGet, modelFor, hcode, hok]

/-- Witness for `C4_graceful_downgrade`: only the chat model
`mistral:7b-instruct-q4_K_M` is available, every invocation of it
succeeds, and the input "code" classifies as `code`. -/
theorem C4_graceful_downgrade_witness :
    (["mistral:7b-instruct-q4_K_M"].contains "codellama:7b-instruct-q4_K_M" = false) ∧
    (initModels ["mistral:7b-instruct-q4_K_M"] =
      some ⟨"mistral:7b-instruct-q4_K_M", "mistral:7b-instruct-q4_K_M"⟩) ∧
    ((⟨"mistral:7b-instruct-q4_K_M", "mistral:7b-instruct-q4_K_M"⟩ : Models).codeModel =
      (⟨"mistral:7b-instruct-q4_K_M", "mistral:7b-instruct-q4_K_M"⟩ : Models).chatModel ∧
     process_query
       (fun ck => (fun _ => Except.ok "pong")
         (modelFor ⟨"mistral:7b-instruct-q4_K_M", "mistral:7b-instruct-q4_K_M"⟩ ck)) "code" =
       (Except.ok "pong", [ModelKey.code])) :=
  ⟨by decide, by decide,
    C4_graceful_downgrade ["mistral:7b-instruct-q4_K_M"]
      ⟨"mistral:7b-instruct-q4_K_M", "mistral:7b-instruct-q4_K_M"⟩
      (fun _ => Except.ok "pong") "code" "pong"
      (by decide) (by decide) rfl (by decide)⟩

/-- The `code_keywords` list of `MultiAgent.process_command`
(`src/main.py`, line 307). -/
def code_keywords : List String :=
  ["code", "program", "script", "function", "debug", "run", "execute",
   "write", "create"]

/-- `is_code_query` (`src/main.py`, line 308): some keyword occurs in the
lowercased command. -/
def is_code_query (command : String) : Bool :=
  code_keywords.any (fun kw => containsSubS kw (lowerString command))

/-- `f"generated_script_{int(time.time())}.py"` (`src/main.py`, line 336)
with the timestamp passed in explicitly. -/
def script_name (ts : Nat) : String :=
  "generated_script_" ++ toString ts ++ ".py"

/-- Suffix of `s` after the first occurrence of `pat`, or `none` when
`pat` does not occur. -/
def dropThroughSub (pat : List Char) : List Char → Option (List Char)
  | [] => if pat.isPrefixOf ([] : List Char) then some [] else none
  | c :: rest =>
      if pat.isPrefixOf (c :: rest) then some ((c :: rest).drop pat.length)
      else dropThroughSub pat rest

/-- Prefix of `s` before the first occurrence of `pat`, or `none` when
`pat` does not occur. -/
def takeBeforeSub (pat : List Char) : List Char → Option (List Char)
  | [] => if pat.isPrefixOf ([] : List Char) then some [] else none
  | c :: rest =>
      if pat.isPrefixOf (c :: rest) then some []
      else (takeBeforeSub pat rest).map (c :: ·)

/-- The first capture of `re.findall(r'```python\n(.*?)\n```', s,
re.DOTALL)` (`src/main.py`, line 334): the text between the leftmost
occurrence of the opening fence and the first closing fence after it
(non-greedy). -/
def extractFirstBlock (s : String) : Option String :=
  match dropThroughSub ("```python\n").data s.data with
  | none => none
  | some rest =>
      match takeBeforeSub ("\n```").data rest with
      | none => none
      | some content => some ⟨content⟩

/-- The prompt given to a model by `MultiAgent.process_command`
(`src/main.py`): the code template (lines 314-326), the enhanced chat
template (lines 351-366), or the raw command (the chat fallback, line
375). -/
inductive PromptKind where
  | codeTemplate (command : String)
  | enhancedTemplate (command : String)
  | raw (command : String)
deriving DecidableEq, Repr

/-- The user-facing message of the code path's `except` branch
(`src/main.py`, line 345). -/
def codeGenErrorMsg : String :=
  "There was an error generating the code. Please try rephrasing your request."

/-- What one `MultiAgent.process_command` call produces: the returned
response text, the artifact persisted to disk (filename and contents), if
any, and the trace of model invocations made, in order. -/
structure CmdResult where
  response : String
  artifact : Option (String × String)
  calls : List (ModelKey × PromptKind)
deriving DecidableEq, Repr

/-- `MultiAgent.process_command` (`src/main.py`, lines 301-379).  Model
invocation is abstracted by `invoke` (deterministic outcome per model and
prompt) and the file write of the extracted code block by `writeOk`
(`false` means `open`/`write` raises, which the code path's `except`
catches, replacing the response by `codeGenErrorMsg`). -/
def process_command (invoke : ModelKey → PromptKind → Except String String)
    (writeOk : Bool) (ts : Nat) (command : String) : CmdResult :=
  if command.isEmpty then
    { response := "I didn't catch that. Could you please try again?",
      artifact := none, calls := [] }
  else if is_code_query command then
    match invoke .code (.codeTemplate command) with
    | .error _ =>
        { response := codeGenErrorMsg, artifact := none,
          calls := [(.code, .codeTemplate command)] }
    | .ok code_response =>
        if containsSubS "```python" code_response then
          match extractFirstBlock code_response with
          | some block =>
              if writeOk then
                { response := code_response ++ "\n\nI've saved the code to " ++
                    script_name ts ++ ". You can run it using 'python " ++
                    script_name ts ++ "'",
                  artifact := some (script_name ts, block),
                  calls := [(.code, .codeTemplate command)] }
              else
                { response := codeGenErrorMsg, artifact := none,
                  calls := [(.code, .codeTemplate command)] }
          | none =>
              { response := code_response, artifact := none,
                calls := [(.code, .codeTemplate command)] }
        else
          { response := code_response, artifact := none,
            calls := [(.code, .codeTemplate command)] }
  else
    match invoke .chat (.enhancedTemplate command) with
    | .ok r =>
        { response := r, artifact := none,
          calls := [(.chat, .enhancedTemplate command)] }
    | .error _ =>
        match invoke .chat (.raw command) with
        | .ok r =>
            { response := r, artifact := none,
              calls := [(.chat, .enhancedTemplate command), (.chat, .raw command)] }
        | .error _ =>
            { response := "I encountered an error processing that command. Could you try rephrasing it?",
              artifact := none,
              calls := [(.chat, .enhancedTemplate command), (.chat, .raw command)] }

/-- Claim C7, counterexample: a successful code dispatch returns
"```python\nprint(1)\n```" (which contains a code block), but the file
write fails; `process_command` then returns the generic error message
instead of the model's response — the extraction/persist step is not
best-effort, its failure replaces the response text. -/
theorem C7_counterexample :
    (process_command (fun _ _ => Except.ok "```python\nprint(1)\n```")
        false 0 "write code").response = codeGenErrorMsg ∧
    codeGenErrorMsg ≠ "```python\nprint(1)\n```" ∧
    extractFirstBlock "```python\nprint(1)\n```" = some "print(1)" := by
  refine ⟨rfl, by decide, rfl⟩

/-- Claim C7, amended: when a code-classified command's model call
succeeds with a response containing an embedded python block, the first
block is extracted; if persisting it succeeds, the block is written under
the timestamped script name and the response (with a note referencing that
filename appended) is returned, but if extracting-and-persisting fails,
the surrounding `except` replaces the whole response by a generic error
message — the failure is not transparent to the caller. -/
theorem C7_artifact_extraction (invoke : ModelKey → PromptKind → Except String String)
    (ts : Nat) (command resp block : String)
    (hne : command.isEmpty = false)
    (hcq : is_code_query command = true)
    (hok : invoke ModelKey.code (PromptKind.codeTemplate command) = Except.ok resp)
    (hfence : containsSubS "```python" resp = true)
    (hblock : extractFirstBlock resp = some block) :
    process_command invoke true ts command =
      { response := resp ++ "\n\nI've saved the code to " ++ script_name ts ++
          ". You can run it using 'python " ++ script_name ts ++ "'",
        artifact := some (script_name ts, block),
        calls := [(ModelKey.code, PromptKind.codeTemplate command)] } ∧
    process_command invoke false ts command =
      { response := codeGenErrorMsg, artifact := none,
        calls := [(ModelKey.code, PromptKind.codeTemplate command)] } := by
  unfold process_command
  rw [hok]
  simp only [hne, hcq, hfence, hblock, Bool.false_eq_true, if_false, if_true]
  exact ⟨trivial, trivial⟩

/-- Witness for `C7_artifact_extraction` at the command "write code" with
the model responding "```python\nprint(1)\n```" and timestamp 0. -/
theorem C7_artifact_extraction_witness :
    ("write code".isEmpty = false) ∧
    (is_code_query "write code" = true) ∧
    (extractFirstBlock "```python\nprint(1)\n```" = some "print(1)") ∧
    process_command (fun _ _ => Except.ok "```python\nprint(1)\n```") true 0 "write code" =
      { response := "```python\nprint(1)\n```" ++ "\n\nI've saved the code to " ++
          script_name 0 ++ ". You can run it using 'python " ++ script_name 0 ++ "'",
        artifact := some (script_name 0, "print(1)"),
        calls := [(ModelKey.code, PromptKind.codeTemplate "write code")] } ∧
    process_command (fun _ _ => Except.ok "```python\nprint(1)\n```") false 0 "write code" =
      { response := codeGenErrorMsg, artifact := none,
        calls := [(ModelKey.code, PromptKind.codeTemplate "write code")] } := by
  refine ⟨by decide, by decide, rfl, ?_⟩
  exact C7_artifact_extraction (fun _ _ => Except.ok "```python\nprint(1)\n```")
    0 "write code" "```python\nprint(1)\n```" "print(1)"
    (by decide) (by decide) rfl (by decide) rfl

/-- One attempt's outcome at the speech-capture boundary
(`MultiAgent.listen`, `src/main.py`, lines 226-265): recognised text, or
one of the retried failure kinds — no speech within the listening window
(`sr.WaitTimeoutError`), speech that could not be transcribed
(`sr.UnknownValueError`), a transport-level failure (`sr.RequestError`),
or any other exception (the generic `except`). -/
inductive CaptureOutcome where
  | success (text : String)
  | noInput
  | untranscribable
  | transportFail
  | otherFail
deriving DecidableEq, Repr

/-- Is the outcome one of the retried failures? -/
def isFailure : CaptureOutcome → Bool
  | .success _ => false
  | _ => true

/-- What one `MultiAgent.listen` call produces: the captured text (or
`none` after exhausting the retries), the number of attempts consumed, and
the number of unit (`time.sleep(1)`) delays taken. -/
structure ListenResult where
  result : Option String
  attempts : Nat
  sleeps : Nat
deriving DecidableEq, Repr

/-- The retry loop of `MultiAgent.listen` over a list of pending attempt
outcomes: success returns immediately; a failure on the last pending
attempt returns `none` without sleeping; otherwise the loop sleeps one
unit and retries. -/
def listenGo : List CaptureOutcome → ListenResult
  | [] => ⟨none, 0, 0⟩
  | o :: rest =>
      match o with
      | .success t => ⟨some t, 1, 0⟩
      | _ =>
          match rest with
          | [] => ⟨none, 1, 0⟩
          | r :: rs =>
              let next := listenGo (r :: rs)
              ⟨next.result, next.attempts + 1, next.sleeps + 1⟩

/-- `max_retries = 3` (`src/main.py`, line 227). -/
def max_retries : Nat := 3

/-- `MultiAgent.listen` (`src/main.py`, lines 226-265): at most
`max_retries` attempts are made, whatever the environment would have
produced on later ones. -/
def MultiAgent.listen (outcomes : List CaptureOutcome) : ListenResult :=
  listenGo (outcomes.take max_retries)

/-- A failed attempt with more attempts pending adds one attempt and one
unit sleep before the remaining retries. -/
theorem listenGo_failure_cons (o : CaptureOutcome) (h : isFailure o = true)
    (r : CaptureOutcome) (rs : List CaptureOutcome) :
    listenGo (o :: r :: rs) =
      ⟨(listenGo (r :: rs)).result, (listenGo (r :: rs)).attempts + 1,
        (listenGo (r :: rs)).sleeps + 1⟩ := by
  cases o <;> simp_all [listenGo, isFailure]

/-- A failed final attempt yields no command without sleeping. -/
theorem listenGo_failure_last (o : CaptureOutcome) (h : isFailure o = true) :
    listenGo [o] = ⟨none, 1, 0⟩ := by
  cases o <;> simp_all [listenGo, isFailure]

/-- What one iteration of the outer loop does with a captured command. -/
inductive StepAction where
  | retryPrompt
  | farewell
  | dispatch (command : String)
deriving DecidableEq, Repr

/-- The body of `MultiAgent.run`'s loop in `src/main.py` (lines 385-394):
a falsy command (capture exhausted or empty text) is rejected with a
retry prompt; a command whose lowercased text contains "exit" or "quit"
ends the session with a farewell, spoken before any dispatch; anything
else is dispatched to `process_command`. -/
def runStep (command : Option String) : StepAction :=
  match command with
  | none => .retryPrompt
  | some c =>
      if c.isEmpty then .retryPrompt
      else if containsSubS "exit" (lowerString c) || containsSubS "quit" (lowerString c)
        then .farewell
      else .dispatch c

/-- The body of `MultiAgent.run`'s loop in `src/multiagent.py` (lines
165-174): same shape, but only "exit" (not "quit") ends the session. -/
def multiagentRunStep (command : Option String) : StepAction :=
  match command with
  | none => .retryPrompt
  | some c =>
      if c.isEmpty then .retryPrompt
      else if containsSubS "exit" (lowerString c) then .farewell
      else .dispatch c

/-- Claim C8 (confirmed): each of the three capture failure kinds (and the
generic one) is retried identically — any three failing outcomes, of any
kinds, exhaust the bound of `max_retries = 3` attempts with a unit delay
after each non-final attempt (2 sleeps in total), yield no command
(`None`), and the surrounding loop then rejects the empty result with a
retry prompt instead of dispatching it; later would-be outcomes are never
consulted. -/
theorem C8_capture_retry (o0 o1 o2 : CaptureOutcome) (rest : List CaptureOutcome)
    (h0 : isFailure o0 = true) (h1 : isFailure o1 = true) (h2 : isFailure o2 = true) :
    MultiAgent.listen (o0 :: o1 :: o2 :: rest) = ⟨none, 3, 2⟩ ∧
    runStep none = StepAction.retryPrompt := by
  refine ⟨?_, rfl⟩
  have htake : (o0 :: o1 :: o2 :: rest).take max_retries = [o0, o1, o2] := by
    simp [max_retries]
  unfold MultiAgent.listen
  rw [htake, listenGo_failure_cons o0 h0, listenGo_failure_cons o1 h1,
    listenGo_failure_last o2 h2]

/-- Witness for `C8_capture_retry` with the three distinct failure kinds
(no input, untranscribable input, transport failure) and no further
outcomes. -/
theorem C8_capture_retry_witness :
    isFailure CaptureOutcome.noInput = true ∧
    isFailure CaptureOutcome.untranscribable = true ∧
    isFailure CaptureOutcome.transportFail = true ∧
    (MultiAgent.listen [CaptureOutcome.noInput, CaptureOutcome.untranscribable,
        CaptureOutcome.transportFail] = ⟨none, 3, 2⟩ ∧
      runStep none = StepAction.retryPrompt) :=
  ⟨rfl, rfl, rfl,
    C8_capture_retry CaptureOutcome.noInput CaptureOutcome.untranscribable
      CaptureOutcome.transportFail [] rfl rfl rfl⟩

/-- The TTS language choice of `MultiAgent.speak` (`src/main.py`, line
273): English iff some character of the text is ASCII (`ord(c) < 128`),
otherwise the Persian voice. -/
inductive TTSLang where
  | en
  | fa
deriving DecidableEq, Repr

/-- `lang = 'en' if any(ord(c) < 128 for c in text) else 'fa'`
(`src/main.py`, line 273). -/
def ttsLang (text : String) : TTSLang :=
  if text.data.any (fun c => c.toNat < 128) then .en else .fa

/-- Claim C9, counterexample: the text "hi سلام" contains non-ASCII
content (its Persian letters), yet the synthesis collaborator routes it to
the English voice, because the rule picks English as soon as any single
character is ASCII. -/
theorem C9_counterexample :
    (∃ c ∈ "hi سلام".data, 128 ≤ c.toNat) ∧ ttsLang "hi سلام" = TTSLang.en := by
  refine ⟨by decide, by decide⟩

/-- Claim C9, amended: the synthesis locale is a function of the response
text's characters alone, but the direction is inverted from the claim —
the non-English voice is chosen exactly when the text contains no ASCII
character at all (so any mixed text, even one space or Latin letter,
routes to the English voice). -/
theorem C9_locale_rule (text : String) :
    ttsLang text = TTSLang.fa ↔ text.data.all (fun c => 128 ≤ c.toNat) = true := by
  unfold ttsLang
  split_ifs with h
  · simp only [List.any_eq_true, decide_eq_true_eq] at h
    obtain ⟨c, hc, hlt⟩ := h
    simp only [List.all_eq_true, decide_eq_true_eq]
    constructor
    · intro he; exact absurd he (by decide)
    · intro hall; exact absurd (hall c hc) (by omega)
  · simp only [List.any_eq_true, decide_eq_true_eq, not_exists] at h
    simp only [List.all_eq_true, decide_eq_true_eq]
    constructor
    · intro _ c hc
      by_contra hlt
      exact h c ⟨hc, by omega⟩
    · intro _; trivial

/-- Claim C10, counterexample: the loop of `src/multiagent.py` checks only
for "exit"; the captured command "quit", whose lowercased text contains
"quit", is dispatched rather than ending the session. -/
theorem C10_counterexample :
    containsSubS "quit" (lowerString "quit") = true ∧
    multiagentRunStep (some "quit") = StepAction.dispatch "quit" := by
  refine ⟨by decide, by decide⟩

/-- Claim C10, amended: for a non-empty captured command, `src/main.py`'s
loop ends the session (farewell, no dispatch) exactly when the lowercased
text contains "exit" or "quit" as a substring — including inside longer
words, so "quite interesting" ends it — while `src/multiagent.py`'s loop
ends the session exactly when the lowercased text contains "exit"; a bare
"quit" there is dispatched instead. -/
theorem C10_exit_detection (c : String) (hne : c.isEmpty = false) :
    (runStep (some c) = StepAction.farewell ↔
      (containsSubS "exit" (lowerString c) || containsSubS "quit" (lowerString c)) = true) ∧
    (multiagentRunStep (some c) = StepAction.farewell ↔
      containsSubS "exit" (lowerString c) = true) := by
  unfold runStep multiagentRunStep
  simp only [hne, Bool.false_eq_true, if_false]
  constructor
  · by_cases h : (containsSubS "exit" (lowerString c) || containsSubS "quit" (lowerString c)) = true
    · simp [h]
    · simp [h]
  · by_cases h : containsSubS "exit" (lowerString c) = true
    · simp [h]
    · simp [h]

/-- Witness for `C10_exit_detection` at the command "quite interesting"
(contains "quit" inside "quite", does not contain "exit"). -/
theorem C10_exit_detection_witness :
    ("quite interesting".isEmpty = false) ∧
    ((runStep (some "quite interesting") = StepAction.farewell ↔
        (containsSubS "exit" (lowerString "quite interesting") ||
         containsSubS "quit" (lowerString "quite interesting")) = true) ∧
      (multiagentRunStep (some "quite interesting") = StepAction.farewell ↔
        containsSubS "exit" (lowerString "quite interesting") = true)) :=
  ⟨by decide, C10_exit_detection "quite interesting" (by decide)⟩
